import Mathlib

/-!
Shallow embedding of the NeuroOS command pipeline:
`ai/voice_interface.py` (intent classification), `ai/orchestrator.py`
(task submission and dispatch), and the collaborator methods of
`core/file_manager.py`, `core/network_manager.py`, `core/system_manager.py`
that the dispatch chain reaches.

Python dictionaries holding heterogeneous result payloads are embedded as
association lists of `String × Value`.  Python floats are embedded as `Rat`
(no claim inspects rounding).  A Python exception is a `PyExc` carrying the
text `str(e)`; code that may raise returns `Except PyExc _`.  External
effects (HTTP responses, psutil readings, directory listings, the clock)
are supplied by an `Env` record; the dict-shaping logic around them is
taken from the source.
-/

namespace NeuroOS

/-- A Python value appearing in result dictionaries. -/
inductive Value where
  | bool : Bool → Value
  | str : String → Value
  | num : Rat → Value
  | list : List Value → Value
  | dict : List (String × Value) → Value

/-- A Python dict used as a result envelope: association list, first match wins. -/
abbrev Dict := List (String × Value)

/-- Lookup `d[k]` as an `Option` (Python `d.get(k)`). -/
def Dict.get? : Dict → String → Option Value
  | [], _ => none
  | (k, v) :: rest, key => if k = key then some v else Dict.get? rest key

/-- Python `d.get(k, default)`. -/
def Dict.getD (d : Dict) (k : String) (dflt : Value) : Value :=
  (Dict.get? d k).getD dflt

/-- Python `v.get(k, default)` when `v` is expected to be a dict. -/
def Value.getD (v : Value) (k : String) (dflt : Value) : Value :=
  match v with
  | .dict d => Dict.getD d k dflt
  | _ => dflt

/-- Python truthiness of a value (`if result['success']:`). -/
def Value.truthy : Value → Bool
  | .bool b => b
  | .str s => !s.isEmpty
  | .num q => q != 0
  | .list l => !l.isEmpty
  | .dict d => !d.isEmpty

/-- A raised Python exception, reduced to its description `str(e)`. -/
structure PyExc where
  msg : String
deriving DecidableEq

/-- A single-quote character (code point 39). -/
def quoteChar : Char := Char.ofNat 39

/-- The text of `str(KeyError(k))`: Python renders it as the repr of the key,
i.e. the key wrapped in single quotes. -/
def keyErrorText (k : String) : String :=
  String.mk (quoteChar :: (k.data ++ [quoteChar]))

/-- The failure envelope `{'success': False, 'error': str(e)}`. -/
def failEnvelope (e : PyExc) : Dict :=
  [("success", Value.bool false), ("error", Value.str e.msg)]

/-! ### Python string primitives (structural, kernel-evaluable) -/

/-- Contiguous-sublist test: `needle` occurs somewhere inside the list. -/
def listContains (needle : List Char) : List Char → Bool
  | [] => needle.isEmpty
  | c :: rest => needle.isPrefixOf (c :: rest) || listContains needle rest

/-- Python `needle in haystack`: contiguous substring test. -/
def pyContains (haystack needle : String) : Bool :=
  listContains needle.data haystack.data

/-- Python `s.lower()` (ASCII case folding, as used by the pipeline). -/
def pyLower (s : String) : String :=
  String.mk (s.data.map Char.toLower)

/-- Python `s.strip()`: drop leading and trailing whitespace. -/
def pyStrip (s : String) : String :=
  String.mk (((s.data.dropWhile Char.isWhitespace).reverse.dropWhile
    Char.isWhitespace).reverse)

/-- Fuel-driven worker for `pySplit` (fuel bounds the characters consumed,
so the recursion is structural and reduces in the kernel). -/
def pySplitGo (sep : List Char) : Nat → List Char → List Char → List (List Char)
  | _, [], acc => [acc.reverse]
  | 0, l, acc => [acc.reverse ++ l]
  | fuel + 1, c :: rest, acc =>
    if sep.isPrefixOf (c :: rest) then
      acc.reverse :: pySplitGo sep fuel ((c :: rest).drop sep.length) []
    else
      pySplitGo sep fuel rest (c :: acc)

/-- Python `s.split(sep)` for a non-empty separator. -/
def pySplit (s sep : String) : List String :=
  (pySplitGo sep.data s.data.length s.data []).map String.mk

/-- Fuel-driven worker for `pyReplace`. -/
def pyReplaceGo (pat repl : List Char) : Nat → List Char → List Char
  | _, [] => []
  | 0, l => l
  | fuel + 1, c :: rest =>
    if !pat.isEmpty && pat.isPrefixOf (c :: rest) then
      repl ++ pyReplaceGo pat repl fuel ((c :: rest).drop pat.length)
    else
      c :: pyReplaceGo pat repl fuel rest

/-- Python `s.replace(pat, repl)`: replace every occurrence. -/
def pyReplace (s pat repl : String) : String :=
  String.mk (pyReplaceGo pat.data repl.data s.data.length s.data)

/-- Worker for `pyTitle`: uppercase a letter that follows a non-letter,
lowercase a letter that follows a letter. -/
def pyTitleGo : Bool → List Char → List Char
  | _, [] => []
  | prevAlpha, c :: rest =>
    (if c.isAlpha then (if prevAlpha then c.toLower else c.toUpper) else c)
      :: pyTitleGo c.isAlpha rest

/-- Python `s.title()` (ASCII behaviour). -/
def pyTitle (s : String) : String :=
  String.mk (pyTitleGo false s.data)

/-! ### `ai/voice_interface.py`: intent classification -/

/-- Keyword table for file operations (`voice_interface.py:36`). -/
def file_keywords : List String :=
  ["file", "folder", "directory", "list", "ls", "read", "create", "delete"]

/-- Keyword table for network operations (`voice_interface.py:41`). -/
def network_keywords : List String :=
  ["search", "find", "weather", "internet", "connectivity", "network"]

/-- Keyword table for system operations (`voice_interface.py:46`). -/
def system_keywords : List String :=
  ["system", "status", "process", "cpu", "memory", "health"]

/-- Embedding of `VoiceInterface._classify_intent` (`voice_interface.py:33-50`): ordered
keyword membership tests with file > network > system > general priority.
Its caller `process_command` lowercases the text before classification. -/
def _classify_intent (text : String) : String :=
  if file_keywords.any (fun k => pyContains text k) then "file_operation"
  else if network_keywords.any (fun k => pyContains text k) then "network_operation"
  else if system_keywords.any (fun k => pyContains text k) then "system_operation"
  else "general"

/-! ### External effects

The collaborator classes wrap OS / HTTP facilities.  Their outcomes are
supplied by an `Env`; the dict construction around them follows the source.
`fileInit`, `netInit`, `sysInit` model an exception raised while importing
or constructing the collaborator inside the category handler (the only
statements inside `_execute_task`'s `try` that can raise: every collaborator
method catches internally and returns a dict). -/

/-- One psutil reading used by `SystemManager.get_system_info`
(`system_manager.py:14-72`); numeric leaves are pre-rounded. -/
structure SysSnapshot where
  cpu_percent : Rat
  core_count : Nat
  freq_mhz : Rat
  load_1 : Rat
  load_5 : Rat
  load_15 : Rat
  mem_total_gb : Rat
  mem_available_gb : Rat
  mem_used_percent : Rat
  mem_used_gb : Rat
  disk_total_gb : Rat
  disk_used_gb : Rat
  disk_free_gb : Rat
  disk_used_percent : Rat
  net_sent_mb : Rat
  net_recv_mb : Rat
  active_connections : Nat
  boot_time : String
  users_count : Nat

/-- Directory-listing outcome consumed by `FileManager.list_directory`
(`file_manager.py:14-75`); items and summary are the OS-dependent parts. -/
structure ListingData where
  path : String
  items : List Value
  summary : Dict

/-- Host data consumed by `NetworkManager.get_system_network_info`
(`network_manager.py:60-95`). -/
structure NetInfoData where
  hostname : String
  local_ip : String
  interfaces : List Value

/-- External world supplied to one dispatch call. -/
structure Env where
  now : Rat
  fileInit : Option PyExc
  netInit : Option PyExc
  sysInit : Option PyExc
  listing : Except PyExc ListingData
  searchHttp : Except PyExc (List Value)
  connTests : List Dict
  netInfo : Except PyExc NetInfoData
  psutilData : Except PyExc SysSnapshot
  processes : List Value

/-! ### `core/file_manager.py` -/

/-- Embedding of `FileManager.list_directory` (`file_manager.py:14-75`): pass-through of
the OS listing with error-to-dict conversion; the 'Path does not exist'
early return is absorbed into the error case. -/
def list_directory (env : Env) : Dict :=
  match env.listing with
  | .error e => failEnvelope e
  | .ok d =>
    [("success", Value.bool true), ("path", Value.str d.path),
     ("items", Value.list d.items), ("summary", Value.dict d.summary)]

/-! ### `core/network_manager.py` -/

/-- Embedding of `NetworkManager.web_search` (`network_manager.py:97-150`) with the HTTP
round-trip abstracted to the accumulated result list; `max_results = 5`. -/
def web_search (env : Env) (query : String) : Dict :=
  match env.searchHttp with
  | .error e => failEnvelope e
  | .ok results =>
    [("success", Value.bool true), ("query", Value.str query),
     ("results", Value.list (results.take 5)),
     ("total_results", Value.num (results.length : Rat)),
     ("source", Value.str "DuckDuckGo")]

/-- Embedding of `NetworkManager.check_connectivity` (`network_manager.py:18-58`): the
per-URL probe loop is abstracted to `env.connTests`; the success count and
envelope shape follow the source (`len(test_urls) = 3`). -/
def check_connectivity (env : Env) : Dict :=
  let results := env.connTests
  let success_count := (results.filter (fun r =>
    match Dict.get? r "status" with
    | some (Value.str s) => s == "SUCCESS"
    | _ => false)).length
  [("success", Value.bool true),
   ("connected", Value.bool (decide (0 < success_count))),
   ("success_rate", Value.str (toString success_count ++ "/3")),
   ("tests", Value.list (results.map Value.dict)),
   ("timestamp", Value.num env.now)]

/-- Embedding of `NetworkManager.get_weather` (`network_manager.py:152-173`): simulated
weather data; the body cannot raise. -/
def get_weather (env : Env) (location : String) : Dict :=
  [("success", Value.bool true),
   ("weather", Value.dict
     [("location", Value.str (pyTitle location)),
      ("temperature", Value.num (45 / 2 : Rat)),
      ("conditions", Value.str "Partly Cloudy"),
      ("humidity", Value.num 65),
      ("wind_speed", Value.num (76 / 5 : Rat)),
      ("pressure", Value.num 1013),
      ("timestamp", Value.num env.now)]),
   ("source", Value.str "simulated")]

/-- Embedding of `NetworkManager.get_system_network_info` (`network_manager.py:60-95`). -/
def get_system_network_info (env : Env) : Dict :=
  match env.netInfo with
  | .error e => failEnvelope e
  | .ok d =>
    [("success", Value.bool true), ("hostname", Value.str d.hostname),
     ("local_ip", Value.str d.local_ip),
     ("interfaces", Value.list d.interfaces),
     ("timestamp", Value.num env.now)]

/-! ### `core/system_manager.py` -/

/-- Embedding of `SystemManager.get_system_info` (`system_manager.py:14-72`).  Note both
branches build a dict WITHOUT a 'success' key: the success branch returns
the raw info dict, the except branch returns `{'error': str(e)}`. -/
def get_system_info (env : Env) : Dict :=
  match env.psutilData with
  | .error e => [("error", Value.str e.msg)]
  | .ok s =>
    [("cpu", Value.dict
       [("usage_percent", Value.num s.cpu_percent),
        ("core_count", Value.num (s.core_count : Rat)),
        ("frequency_mhz", Value.num s.freq_mhz),
        ("load_average", Value.list
          [Value.num s.load_1, Value.num s.load_5, Value.num s.load_15])]),
     ("memory", Value.dict
       [("total_gb", Value.num s.mem_total_gb),
        ("available_gb", Value.num s.mem_available_gb),
        ("used_percent", Value.num s.mem_used_percent),
        ("used_gb", Value.num s.mem_used_gb)]),
     ("disk", Value.dict
       [("total_gb", Value.num s.disk_total_gb),
        ("used_gb", Value.num s.disk_used_gb),
        ("free_gb", Value.num s.disk_free_gb),
        ("used_percent", Value.num s.disk_used_percent)]),
     ("network", Value.dict
       [("bytes_sent_mb", Value.num s.net_sent_mb),
        ("bytes_recv_mb", Value.num s.net_recv_mb),
        ("active_connections", Value.num (s.active_connections : Rat))]),
     ("system", Value.dict
       [("boot_time", Value.str s.boot_time),
        ("users_count", Value.num (s.users_count : Rat)),
        ("timestamp", Value.num env.now)])]

/-- Embedding of `SystemManager.get_running_processes` (`system_manager.py:74-93`): the
psutil iteration and sorting are abstracted to the supplied list. -/
def get_running_processes (env : Env) : List Value :=
  env.processes

/-- Python `v > bound` for a numeric value read out of an info dict. -/
def numGt (v : Value) (bound : Rat) : Bool :=
  match v with
  | .num q => decide (bound < q)
  | _ => false

/-- Embedding of `SystemManager.get_system_health` (`system_manager.py:124-150`): derives
a status from `get_system_info` via defaulted lookups; the returned dict has
no 'success' key. -/
def get_system_health (env : Env) : Dict :=
  let info := get_system_info env
  let cpuHigh := numGt (Value.getD (Dict.getD info "cpu" (Value.dict []))
    "usage_percent" (Value.num 0)) 90
  let memHigh := numGt (Value.getD (Dict.getD info "memory" (Value.dict []))
    "used_percent" (Value.num 0)) 90
  let diskHigh := numGt (Value.getD (Dict.getD info "disk" (Value.dict []))
    "used_percent" (Value.num 0)) 90
  let s1 := if cpuHigh then "WARNING" else "HEALTHY"
  let w1 : List Value := if cpuHigh then [Value.str "High CPU usage"] else []
  let s2 := if memHigh then "CRITICAL" else s1
  let w2 := w1 ++ (if memHigh then [Value.str "High memory usage"] else [])
  let s3 := if diskHigh then "WARNING" else s2
  let w3 := w2 ++ (if diskHigh then [Value.str "Low disk space"] else [])
  [("status", Value.str s3), ("warnings", Value.list w3),
   ("timestamp", Value.num env.now)]

/-! ### `ai/orchestrator.py` -/

/-- Embedding of `TaskPriority` (`orchestrator.py:5-9`). -/
inductive TaskPriority where
  | LOW
  | MEDIUM
  | HIGH
  | CRITICAL
deriving DecidableEq

/-- The task dict built in `submit_task` (`orchestrator.py:28-35`); the
'result' key is absent until execution finishes, hence `Option`. -/
structure Task where
  id : Nat
  command : String
  intent : Option String
  status : String
  priority : TaskPriority
  timestamp : Rat
  result : Option Dict

/-- Embedding of the `AIOrchestrator` state (`orchestrator.py:12-15`); registered modules are
kept as name/description pairs (the function objects play no role in any
dispatch path). -/
structure AIOrchestrator where
  tasks : List Task
  task_history : List Task
  modules : List (String × String)

/-- A fresh orchestrator (`AIOrchestrator.__init__`). -/
def initOrchestrator : AIOrchestrator :=
  ⟨[], [], []⟩

/-- Embedding of `AIOrchestrator._handle_file_operation` (`orchestrator.py:70-81`).
The import/constructor step may raise (`env.fileInit`). -/
def _handle_file_operation (env : Env) (command : String) : Except PyExc Dict :=
  match env.fileInit with
  | some e => .error e
  | none =>
    if pyContains (pyLower command) "list" || pyContains (pyLower command) "ls" then
      .ok (list_directory env)
    else if pyContains (pyLower command) "read" then
      .ok [("success", Value.bool true), ("message", Value.str "File read operation")]
    else
      .ok [("success", Value.bool true), ("message", Value.str "File operation completed")]

/-- Embedding of `AIOrchestrator._handle_network_operation` (`orchestrator.py:83-99`).
Note the 'in' membership test runs on the ORIGINAL command, not lowered. -/
def _handle_network_operation (env : Env) (command : String) : Except PyExc Dict :=
  match env.netInit with
  | some e => .error e
  | none =>
    if pyContains (pyLower command) "search" then
      .ok (web_search env (pyStrip (pyReplace command "search" "")))
    else if pyContains (pyLower command) "weather" then
      let location :=
        if pyContains command "in" then pyStrip ((pySplit command "in").getD 1 "")
        else "London"
      .ok (get_weather env location)
    else if pyContains (pyLower command) "internet"
        || pyContains (pyLower command) "connectivity" then
      .ok (check_connectivity env)
    else
      .ok (get_system_network_info env)

/-- Embedding of `AIOrchestrator._handle_system_operation` (`orchestrator.py:101-113`). -/
def _handle_system_operation (env : Env) (command : String) : Except PyExc Dict :=
  match env.sysInit with
  | some e => .error e
  | none =>
    if pyContains (pyLower command) "status" then
      .ok (get_system_info env)
    else if pyContains (pyLower command) "process" then
      .ok [("success", Value.bool true),
           ("processes", Value.list (get_running_processes env))]
    else if pyContains (pyLower command) "health" then
      .ok (get_system_health env)
    else
      .ok (get_system_info env)

/-- Embedding of `AIOrchestrator._handle_general_command` (`orchestrator.py:115-121`). -/
def _handle_general_command (env : Env) (command : String) : Dict :=
  [("success", Value.bool true),
   ("message", Value.str ("Command executed: " ++ command)),
   ("timestamp", Value.num env.now)]

/-- Embedding of `AIOrchestrator._execute_task` (`orchestrator.py:52-68`).  The 'intent'
key always exists in the task dict, so `task.get('intent', 'general')` is
the stored value (possibly Python `None`); any handler exception is caught
and flattened to a failure envelope. -/
def _execute_task (env : Env) (task : Task) : Dict :=
  match
    (if task.intent = some "file_operation" then
      _handle_file_operation env task.command
    else if task.intent = some "network_operation" then
      _handle_network_operation env task.command
    else if task.intent = some "system_operation" then
      _handle_system_operation env task.command
    else
      .ok (_handle_general_command env task.command) : Except PyExc Dict) with
  | .ok d => d
  | .error e => failEnvelope e

/-- The task dict created at `orchestrator.py:27-35`: sequence number
`len(self.tasks) + 1`, the submitted text and intent, fixed defaults. -/
def mkTask (env : Env) (st : AIOrchestrator) (command : String)
    (user_intent : Option String) : Task :=
  ⟨st.tasks.length + 1, command, user_intent, "pending", TaskPriority.MEDIUM,
   env.now, none⟩

/-- Embedding of `AIOrchestrator.submit_task` (`orchestrator.py:24-50`).  The task dict is
appended to `self.tasks`, executed, and — if `result['success']` does not
raise `KeyError` — updated in place and appended to `self.task_history`.
A missing 'success' key reaches the outer `except`, which returns a fresh
failure envelope; the history append is skipped in that case. -/
def submit_task (env : Env) (st : AIOrchestrator) (command : String)
    (user_intent : Option String) : AIOrchestrator × Dict :=
  match Dict.get? (_execute_task env (mkTask env st command user_intent)) "success" with
  | none =>
    ({ st with tasks := st.tasks ++ [mkTask env st command user_intent] },
     failEnvelope ⟨keyErrorText "success"⟩)
  | some v =>
    ({ st with
        tasks := st.tasks ++
          [{ mkTask env st command user_intent with
              status := if v.truthy then "completed" else "failed",
              result := some (_execute_task env (mkTask env st command user_intent)) }],
        task_history := st.task_history ++
          [{ mkTask env st command user_intent with
              status := if v.truthy then "completed" else "failed",
              result := some (_execute_task env (mkTask env st command user_intent)) }] },
     _execute_task env (mkTask env st command user_intent))

/-- Embedding of `AIOrchestrator.get_task_history` (`orchestrator.py:123-125`): the Python
slice `task_history[-limit:]`.  For `limit = 0` the slice is `[-0:] = [0:]`,
i.e. the WHOLE list; otherwise the trailing `limit` records. -/
def get_task_history (st : AIOrchestrator) (limit : Nat) : List Task :=
  if limit = 0 then st.task_history
  else st.task_history.drop (st.task_history.length - limit)

/-- One call to `submit_task`: its environment and arguments. -/
structure Submission where
  env : Env
  command : String
  user_intent : Option String

/-- Run a sequence of submissions against an orchestrator. -/
def runSubmits : List Submission → AIOrchestrator → AIOrchestrator
  | [], st => st
  | s :: rest, st => runSubmits rest (submit_task s.env st s.command s.user_intent).1

/-! ### Properties and concrete environments used by the verification -/

/-- The 'success' entry of a dict is either absent or a Python boolean. -/
def successKeyOk (d : Dict) : Prop :=
  Dict.get? d "success" = none ∨ ∃ b, Dict.get? d "success" = some (Value.bool b)

/-- Lift `successKeyOk` over a possibly-raising handler result. -/
def exceptSuccessOk : Except PyExc Dict → Prop
  | .ok d => successKeyOk d
  | .error _ => True

/-- Every history record has a terminal status and a non-null result. -/
def historyOk (st : AIOrchestrator) : Prop :=
  ∀ t ∈ st.task_history,
    (t.status = "completed" ∨ t.status = "failed") ∧ t.result ≠ none

/-- Sequence-number invariant carried through a run: ids are bounded by the
number of submissions so far and strictly increase along both lists. -/
def idsInv (st : AIOrchestrator) : Prop :=
  (∀ t ∈ st.tasks, t.id ≤ st.tasks.length) ∧
  (∀ t ∈ st.task_history, t.id ≤ st.tasks.length) ∧
  (st.tasks.map Task.id).Pairwise (· < ·) ∧
  (st.task_history.map Task.id).Pairwise (· < ·)

/-- The exception (if any) raised by the import/constructor step of the
handler that the given intent label routes to, mirroring the dispatch order
of `_execute_task`. -/
def handlerInitExc (env : Env) (intent : Option String) : Option PyExc :=
  if intent = some "file_operation" then env.fileInit
  else if intent = some "network_operation" then env.netInit
  else if intent = some "system_operation" then env.sysInit
  else none

/-- A benign psutil reading. -/
def snapshotDemo : SysSnapshot :=
  ⟨10, 4, 2000, 0, 0, 0, 16, 8, 50, 8, 100, 40, 60, 40, 1, 1, 5, "boot", 1⟩

/-- A benign environment: no import failures, all collaborators succeed. -/
def envDemo : Env :=
  ⟨0, none, none, none, Except.ok ⟨"/", [], []⟩, Except.ok [], [],
   Except.ok ⟨"host", "127.0.0.1", []⟩, Except.ok snapshotDemo, []⟩

/-- An environment in which constructing the network collaborator raises. -/
def envFail : Env :=
  ⟨0, none, some ⟨"Network unreachable"⟩, none, Except.ok ⟨"/", [], []⟩,
   Except.ok [], [], Except.ok ⟨"host", "127.0.0.1", []⟩,
   Except.ok snapshotDemo, []⟩

/-- One benign general-intent submission. -/
def subDemo : Submission :=
  ⟨envDemo, "hello", none⟩

/-- The orchestrator after one benign general-intent submission. -/
def stOne : AIOrchestrator :=
  runSubmits [subDemo] initOrchestrator


lemma successKeyOk_failEnvelope (e : PyExc) : successKeyOk (failEnvelope e) :=
  Or.inr ⟨false, rfl⟩

lemma successKeyOk_list_directory (env : Env) : successKeyOk (list_directory env) := by
  unfold list_directory
  rcases h : env.listing with e | d <;> simp only [h]
  · exact successKeyOk_failEnvelope e
  · exact Or.inr ⟨true, rfl⟩

lemma successKeyOk_web_search (env : Env) (q : String) : successKeyOk (web_search env q) := by
  unfold web_search
  rcases h : env.searchHttp with e | r <;> simp only [h]
  · exact successKeyOk_failEnvelope e
  · exact Or.inr ⟨true, rfl⟩

lemma successKeyOk_check_connectivity (env : Env) : successKeyOk (check_connectivity env) :=
  Or.inr ⟨true, rfl⟩

lemma successKeyOk_get_weather (env : Env) (l : String) : successKeyOk (get_weather env l) :=
  Or.inr ⟨true, rfl⟩

lemma successKeyOk_netinfo (env : Env) : successKeyOk (get_system_network_info env) := by
  unfold get_system_network_info
  rcases h : env.netInfo with e | d <;> simp only [h]
  · exact successKeyOk_failEnvelope e
  · exact Or.inr ⟨true, rfl⟩

lemma successKeyOk_get_system_info (env : Env) : successKeyOk (get_system_info env) := by
  unfold get_system_info
  rcases h : env.psutilData with e | s <;> simp only [h]
  · exact Or.inl rfl
  · exact Or.inl rfl

lemma successKeyOk_get_system_health (env : Env) : successKeyOk (get_system_health env) :=
  Or.inl rfl

lemma exceptSuccessOk_file (env : Env) (c : String) :
    exceptSuccessOk (_handle_file_operation env c) := by
  unfold _handle_file_operation
  rcases h : env.fileInit with _ | e <;> simp only [h]
  · split_ifs
    · exact successKeyOk_list_directory env
    · exact Or.inr ⟨true, rfl⟩
    · exact Or.inr ⟨true, rfl⟩
  · trivial

lemma exceptSuccessOk_network (env : Env) (c : String) :
    exceptSuccessOk (_handle_network_operation env c) := by
  unfold _handle_network_operation
  rcases h : env.netInit with _ | e <;> simp only [h]
  · split_ifs
    · exact successKeyOk_web_search env _
    · exact successKeyOk_get_weather env _
    · exact successKeyOk_get_weather env _
    · exact successKeyOk_check_connectivity env
    · exact successKeyOk_netinfo env
  · trivial

lemma exceptSuccessOk_system (env : Env) (c : String) :
    exceptSuccessOk (_handle_system_operation env c) := by
  unfold _handle_system_operation
  rcases h : env.sysInit with _ | e <;> simp only [h]
  · split_ifs
    · exact successKeyOk_get_system_info env
    · exact Or.inr ⟨true, rfl⟩
    · exact successKeyOk_get_system_health env
    · exact successKeyOk_get_system_info env
  · trivial

lemma execute_success_key (env : Env) (task : Task) :
    successKeyOk (_execute_task env task) := by
  unfold _execute_task
  split
  case _ d heq =>
    split_ifs at heq
    · have := exceptSuccessOk_file env task.command
      rw [heq] at this; exact this
    · have := exceptSuccessOk_network env task.command
      rw [heq] at this; exact this
    · have := exceptSuccessOk_system env task.command
      rw [heq] at this; exact this
    · cases heq; exact Or.inr ⟨true, rfl⟩
  case _ e heq =>
    exact successKeyOk_failEnvelope e

lemma submit_snd_bool (env : Env) (st : AIOrchestrator) (c : String) (i : Option String) :
    ∃ b, Dict.get? (submit_task env st c i).2 "success" = some (Value.bool b) := by
  unfold submit_task
  rcases h : Dict.get? (_execute_task env (mkTask env st c i)) "success" with _ | v
  · exact ⟨false, rfl⟩
  · rcases execute_success_key env (mkTask env st c i) with hnone | ⟨b, hb⟩
    · rw [h] at hnone; cases hnone
    · exact ⟨b, hb⟩

lemma submit_cases (env : Env) (st : AIOrchestrator) (c : String) (i : Option String) :
    ∃ t : Task,
      (submit_task env st c i).1.tasks = st.tasks ++ [t] ∧
      t.id = st.tasks.length + 1 ∧
      ((submit_task env st c i).1.task_history = st.task_history ∨
       ((submit_task env st c i).1.task_history = st.task_history ++ [t] ∧
        (t.status = "completed" ∨ t.status = "failed") ∧ t.result ≠ none)) := by
  unfold submit_task
  rcases h : Dict.get? (_execute_task env (mkTask env st c i)) "success" with _ | v
  · exact ⟨mkTask env st c i, rfl, rfl, Or.inl rfl⟩
  · refine ⟨_, rfl, rfl, Or.inr ⟨rfl, ?_, ?_⟩⟩
    · cases hv : v.truthy
      · exact Or.inr (by simp [hv])
      · exact Or.inl (by simp [hv])
    · simp

lemma submit_historyOk (env : Env) (st : AIOrchestrator) (c : String)
    (i : Option String) (h : historyOk st) : historyOk (submit_task env st c i).1 := by
  obtain ⟨t, _, _, hcase⟩ := submit_cases env st c i
  rcases hcase with hsame | ⟨happ, hstat, hres⟩
  · intro u hu
    rw [hsame] at hu
    exact h u hu
  · intro u hu
    rw [happ] at hu
    rcases List.mem_append.mp hu with hu | hu
    · exact h u hu
    · rw [List.mem_singleton.mp hu]
      exact ⟨hstat, hres⟩

lemma runSubmits_historyOk (subs : List Submission) :
    ∀ st, historyOk st → historyOk (runSubmits subs st) := by
  induction subs with
  | nil => intro st h; exact h
  | cons s rest ih =>
    intro st h
    exact ih _ (submit_historyOk _ _ _ _ h)

lemma submit_idsInv (env : Env) (st : AIOrchestrator) (c : String)
    (i : Option String) (h : idsInv st) : idsInv (submit_task env st c i).1 := by
  obtain ⟨t, htasks, hid, hcase⟩ := submit_cases env st c i
  obtain ⟨hb1, hb2, hp1, hp2⟩ := h
  have hlen : (submit_task env st c i).1.tasks.length = st.tasks.length + 1 := by
    rw [htasks]; simp
  refine ⟨?_, ?_, ?_, ?_⟩
  · intro u hu
    rw [htasks] at hu
    rw [hlen]
    rcases List.mem_append.mp hu with hu | hu
    · exact le_trans (hb1 u hu) (Nat.le_succ _)
    · rw [List.mem_singleton.mp hu, hid]
  · intro u hu
    rw [hlen]
    rcases hcase with hsame | ⟨happ, _, _⟩
    · rw [hsame] at hu
      exact le_trans (hb2 u hu) (Nat.le_succ _)
    · rw [happ] at hu
      rcases List.mem_append.mp hu with hu | hu
      · exact le_trans (hb2 u hu) (Nat.le_succ _)
      · rw [List.mem_singleton.mp hu, hid]
  · rw [htasks, List.map_append]
    refine List.pairwise_append.mpr ⟨hp1, by simp, ?_⟩
    intro a ha b hb
    obtain ⟨u, hu, rfl⟩ := List.mem_map.mp ha
    simp only [List.map_cons, List.map_nil, List.mem_singleton] at hb
    rw [hb, hid]
    exact Nat.lt_succ_of_le (hb1 u hu)
  · rcases hcase with hsame | ⟨happ, _, _⟩
    · rw [hsame]; exact hp2
    · rw [happ, List.map_append]
      refine List.pairwise_append.mpr ⟨hp2, by simp, ?_⟩
      intro a ha b hb
      obtain ⟨u, hu, rfl⟩ := List.mem_map.mp ha
      simp only [List.map_cons, List.map_nil, List.mem_singleton] at hb
      rw [hb, hid]
      exact Nat.lt_succ_of_le (hb2 u hu)

lemma runSubmits_idsInv (subs : List Submission) :
    ∀ st, idsInv st → idsInv (runSubmits subs st) := by
  induction subs with
  | nil => intro st h; exact h
  | cons s rest ih =>
    intro st h
    exact ih _ (submit_idsInv _ _ _ _ h)

lemma idsInv_init : idsInv initOrchestrator := by
  refine ⟨?_, ?_, ?_, ?_⟩ <;> simp [initOrchestrator]

/-- C2: for every command text and intent, `submit_task` returns an envelope
with a boolean 'success' key (it is a total function of its inputs, so no
exception escapes), making the result success xor failure. -/
theorem submit_task_total_bool_success (env : Env) (st : AIOrchestrator)
    (command : String) (intent : Option String) :
    ∃ b : Bool, Dict.get? (submit_task env st command intent).2 "success"
      = some (Value.bool b) :=
  submit_snd_bool env st command intent

/-- C6: after any sequence of submissions from a fresh orchestrator, every
record in `task_history` has a terminal status and a non-null result. -/
theorem history_terminal_invariant (subs : List Submission) :
    historyOk (runSubmits subs initOrchestrator) :=
  runSubmits_historyOk subs initOrchestrator (by intro t ht; cases ht)

/-- C6 witness: the invariant instantiated at one concrete submission. -/
theorem history_terminal_invariant_witness :
    historyOk (runSubmits [subDemo] initOrchestrator) :=
  history_terminal_invariant [subDemo]

/-- C7: across any sequence of submissions from a fresh orchestrator, the
assigned sequence numbers are strictly increasing (hence unique), both over
the tasks list and over the recorded history. -/
theorem ids_strictly_increasing (subs : List Submission) :
    (((runSubmits subs initOrchestrator).tasks.map Task.id).Pairwise (· < ·)) ∧
    (((runSubmits subs initOrchestrator).task_history.map Task.id).Pairwise (· < ·)) := by
  have h := runSubmits_idsInv subs initOrchestrator idsInv_init
  exact ⟨h.2.2.1, h.2.2.2⟩

/-- C7 witness: the invariant instantiated at one concrete submission. -/
theorem ids_strictly_increasing_witness :
    (((runSubmits [subDemo] initOrchestrator).tasks.map Task.id).Pairwise (· < ·)) ∧
    (((runSubmits [subDemo] initOrchestrator).task_history.map Task.id).Pairwise (· < ·)) :=
  ids_strictly_increasing [subDemo]

/-- C3: classification of the case-folded text tests the keyword sets in the
fixed priority order file > network > system > general, a set winning as
soon as one of its keywords occurs as a substring. -/
theorem classify_priority_order (text : String) :
    _classify_intent (pyLower text) =
      if ∃ k ∈ file_keywords, pyContains (pyLower text) k = true then
        "file_operation"
      else if ∃ k ∈ network_keywords, pyContains (pyLower text) k = true then
        "network_operation"
      else if ∃ k ∈ system_keywords, pyContains (pyLower text) k = true then
        "system_operation"
      else "general" := by
  unfold _classify_intent
  split_ifs <;> simp_all [List.any_eq_true]

/-- C9: `_classify_intent` is a total pure function: equal inputs give equal
labels, and the label always lies in the closed four-element set. -/
theorem classify_total_pure (text : String) :
    _classify_intent text = _classify_intent text ∧
    _classify_intent text ∈
      ["file_operation", "network_operation", "system_operation", "general"] := by
  refine ⟨rfl, ?_⟩
  unfold _classify_intent
  split_ifs <;> simp

lemma execute_init_exc (env : Env) (task : Task) (e : PyExc)
    (h : handlerInitExc env task.intent = some e) :
    _execute_task env task = failEnvelope e := by
  unfold handlerInitExc at h
  unfold _execute_task
  split_ifs at h ⊢ <;>
    simp_all [_handle_file_operation, _handle_network_operation,
      _handle_system_operation]

/-- C5: when the routed handler raises, the caller gets a failure envelope
whose error message is the exception's description, and the history gains
exactly one record with status 'failed'. -/
theorem handler_exception_failed_record (env : Env) (st : AIOrchestrator)
    (command : String) (intent : Option String) (e : PyExc)
    (h : handlerInitExc env intent = some e) :
    (submit_task env st command intent).2 = failEnvelope e ∧
    Dict.get? (submit_task env st command intent).2 "error" = some (Value.str e.msg) ∧
    ∃ t, (submit_task env st command intent).1.task_history = st.task_history ++ [t] ∧
      t.status = "failed" ∧ t.result = some (failEnvelope e) := by
  have hexec : _execute_task env (mkTask env st command intent) = failEnvelope e :=
    execute_init_exc env (mkTask env st command intent) e h
  unfold submit_task
  rw [hexec]
  exact ⟨rfl, rfl, ⟨_, rfl, rfl, rfl⟩⟩

/-- C5 witness: a concrete run in which the network collaborator raises. -/
theorem handler_exception_failed_record_witness :
    handlerInitExc envFail (some "network_operation")
        = some (PyExc.mk "Network unreachable") ∧
    ((submit_task envFail initOrchestrator "ping" (some "network_operation")).2
        = failEnvelope (PyExc.mk "Network unreachable") ∧
     Dict.get? (submit_task envFail initOrchestrator "ping"
        (some "network_operation")).2 "error"
        = some (Value.str (PyExc.mk "Network unreachable").msg) ∧
     ∃ t, (submit_task envFail initOrchestrator "ping"
        (some "network_operation")).1.task_history
          = initOrchestrator.task_history ++ [t] ∧
       t.status = "failed" ∧
       t.result = some (failEnvelope (PyExc.mk "Network unreachable"))) :=
  ⟨rfl, handler_exception_failed_record envFail initOrchestrator "ping"
    (some "network_operation") (PyExc.mk "Network unreachable") rfl⟩

/-- C10: with no supplied intent or an unknown label, dispatch falls through
to the general handler and returns its fixed-shape success envelope. -/
theorem unknown_intent_routes_general (env : Env) (st : AIOrchestrator)
    (command : String) (intent : Option String)
    (h1 : intent ≠ some "file_operation")
    (h2 : intent ≠ some "network_operation")
    (h3 : intent ≠ some "system_operation") :
    (submit_task env st command intent).2 =
      [("success", Value.bool true),
       ("message", Value.str ("Command executed: " ++ command)),
       ("timestamp", Value.num env.now)] ∧
    ∃ t, (submit_task env st command intent).1.task_history
        = st.task_history ++ [t] ∧ t.status = "completed" := by
  have hi : (mkTask env st command intent).intent = intent := rfl
  have hexec : _execute_task env (mkTask env st command intent)
      = _handle_general_command env command := by
    unfold _execute_task
    rw [hi, if_neg h1, if_neg h2, if_neg h3]
    rfl
  unfold submit_task
  rw [hexec]
  exact ⟨rfl, ⟨_, rfl, rfl⟩⟩

/-- C10 witness: submitting with no intent at all. -/
theorem unknown_intent_routes_general_witness :
    ((none : Option String) ≠ some "file_operation") ∧
    ((submit_task envDemo initOrchestrator "hello" none).2 =
      [("success", Value.bool true),
       ("message", Value.str ("Command executed: " ++ "hello")),
       ("timestamp", Value.num envDemo.now)] ∧
     ∃ t, (submit_task envDemo initOrchestrator "hello" none).1.task_history
        = initOrchestrator.task_history ++ [t] ∧ t.status = "completed") :=
  ⟨by simp, unknown_intent_routes_general envDemo initOrchestrator "hello" none
    (by simp) (by simp) (by simp)⟩

/-- C8: "weather in Paris" classifies as network_operation, and submitting
it with that intent yields a success envelope whose weather record has
location "Paris" (needs only that the network collaborator constructs). -/
theorem weather_in_paris (env : Env) (st : AIOrchestrator)
    (h : env.netInit = none) :
    _classify_intent (pyLower "weather in Paris") = "network_operation" ∧
    (∃ w, Dict.get? (submit_task env st "weather in Paris"
        (some (_classify_intent (pyLower "weather in Paris")))).2 "weather"
        = some (Value.dict w) ∧
      Dict.get? w "location" = some (Value.str "Paris")) ∧
    Dict.get? (submit_task env st "weather in Paris"
        (some (_classify_intent (pyLower "weather in Paris")))).2 "success"
      = some (Value.bool true) := by
  obtain ⟨now, fi, ni, si, li, se, ct, nf, ps, pr⟩ := env
  have h2 : ni = none := h
  subst h2
  exact ⟨rfl, ⟨_, rfl, rfl⟩, rfl⟩

/-- C8 witness: the same run in the concrete benign environment. -/
theorem weather_in_paris_witness :
    envDemo.netInit = none ∧
    (_classify_intent (pyLower "weather in Paris") = "network_operation" ∧
     (∃ w, Dict.get? (submit_task envDemo initOrchestrator "weather in Paris"
        (some (_classify_intent (pyLower "weather in Paris")))).2 "weather"
        = some (Value.dict w) ∧
       Dict.get? w "location" = some (Value.str "Paris")) ∧
     Dict.get? (submit_task envDemo initOrchestrator "weather in Paris"
        (some (_classify_intent (pyLower "weather in Paris")))).2 "success"
       = some (Value.bool true)) :=
  ⟨rfl, weather_in_paris envDemo initOrchestrator rfl⟩

/-- C4 counterexample: after one submission, `get_task_history 0` returns the
whole one-element history, not at most `0` records — the Python slice
`[-0:]` is the full list. -/
theorem get_task_history_zero_counterexample :
    (get_task_history stOne 0).length = 1 ∧
    ¬ ((get_task_history stOne 0).length ≤ 0) :=
  ⟨rfl, by decide⟩

/-- C4 amended: for every POSITIVE limit, `get_task_history` returns at most
`limit` records, and exactly the trailing (most recent) part of the history
in submission order; `limit = 0` instead returns the entire history. -/
theorem get_task_history_recent (st : AIOrchestrator) (limit : Nat)
    (h : 1 ≤ limit) :
    (get_task_history st limit).length ≤ limit ∧
    (get_task_history st limit).length = min limit st.task_history.length ∧
    st.task_history.take (st.task_history.length - limit)
        ++ get_task_history st limit = st.task_history := by
  unfold get_task_history
  rw [if_neg (by omega)]
  refine ⟨?_, ?_, List.take_append_drop _ _⟩
  · rw [List.length_drop]
    omega
  · rw [List.length_drop]
    omega

/-- C4 amended witness: limit 1 on a one-element history. -/
theorem get_task_history_recent_witness :
    1 ≤ 1 ∧
    ((get_task_history stOne 1).length ≤ 1 ∧
     (get_task_history stOne 1).length = min 1 stOne.task_history.length ∧
     stOne.task_history.take (stOne.task_history.length - 1)
        ++ get_task_history stOne 1 = stOne.task_history) :=
  ⟨le_refl 1, get_task_history_recent stOne 1 (le_refl 1)⟩

/-- C1: the failing input.  Submitting command "status" with intent
system_operation routes to `get_system_info`, whose returned dict has no
'success' key; `result['success']` then raises KeyError inside
`submit_task`, the outer except returns a failure envelope with message
"'success'", and the history append is SKIPPED: the history does not grow. -/
theorem submit_status_skips_history :
    Dict.get? (get_system_info envDemo) "success" = none ∧
    (submit_task envDemo initOrchestrator "status"
        (some "system_operation")).1.task_history = [] ∧
    (submit_task envDemo initOrchestrator "status" (some "system_operation")).2
      = [("success", Value.bool false),
         ("error", Value.str (keyErrorText "success"))] :=
  ⟨rfl, rfl, rfl⟩

end NeuroOS
